import Mathlib

/-!
Verification development for the `tracing-gcloud-layer` crate.

The Rust sources are shallowly embedded as pure Lean functions:

* `src/gauth/mod.rs` — the credential cache (`GAuth`): `access_token_inner`,
  `access_token` (with the JWT exchange modelled as an oracle argument, and
  the number of performed network exchanges made explicit);
* `src/gauth/jwt.rs` — `JwtToken::to_string`: base64 encoding of the three
  JWT segments (the code uses the STANDARD alphabet with `=` padding via
  `general_purpose::STANDARD.encode`);
* `src/google_logger.rs` — `GoogleLogger::write_logs`: classification of a
  batch send, with the token result and the HTTP response as oracle inputs;
* `src/google_writer.rs` — the batch-accumulator loop `run_batch_logger`
  (buffer, deadline timer, size/timeout/shutdown flushes), `Write::write`
  (non-blocking `try_send`), and the per-writer clone made by
  `GCloudLayerConfig::build_layer`.

Machine integers (`u64` timestamps, `usize` lengths) are modelled on `Nat`;
theorems that quantify over timestamps carry the side conditions under which
`Nat` subtraction agrees with `u64` subtraction (the constants of the code,
30 and 3600 and 60, keep all claims far from wrap-around).
-/

namespace TracingGcloud

/-- Embeds `Token` from `src/gauth/jwt.rs`: the parsed response of the
token endpoint `{access_token, expires_in, token_type}`. -/
structure Token where
  access_token : String
  expires_in : Nat
  token_type : String
deriving DecidableEq

/-- Embeds `Token::bearer_token`: `format!("{} {}", token_type, access_token)`. -/
def Token.bearer_token (t : Token) : String :=
  t.token_type ++ " " ++ t.access_token

/-- The mutable cache slots of `GAuth` (src/gauth/mod.rs lines 21-22):
`access_token : Option<String>` and `expires_at : Option<u64>`.  The
immutable fields (scopes, key bytes, user email, http client) play no role
in the cache logic and are omitted from the state. -/
structure GAuthState where
  access_token : Option String
  expires_at : Option Nat
deriving DecidableEq

/-- The guard of the first match arm of `GAuth::access_token_inner`
(src/gauth/mod.rs lines 47-50): the cached token string, provided both
slots are populated and `expires_at > timestamp()`. -/
def cache_hit (s : GAuthState) (now : Nat) : Option String :=
  match s.access_token, s.expires_at with
  | some a, some e => if e > now then some a else none
  | _, _ => none

/-- Embeds `GAuth::access_token_inner` (src/gauth/mod.rs lines 46-60):
on a cache hit return the cached string and leave the state unchanged;
otherwise store `expires_at = now + token.expires_in - 30` together with
the bearer string and return it. -/
def access_token_inner (s : GAuthState) (now : Nat) (token : Token) :
    GAuthState × String :=
  match cache_hit s now with
  | some a => (s, a)
  | none =>
    (⟨some token.bearer_token, some (now + token.expires_in - 30)⟩,
     token.bearer_token)

/-- Error taxonomy of `src/gauth/errors.rs` as far as the claims need it. -/
inductive GErr
  | keyError
  | transportError
  | decodeError
deriving DecidableEq

/-- Embeds `GAuth::access_token` (src/gauth/mod.rs lines 65-70).  The body
first builds the JWT (`self.jwt_token()?`, outcome `jwtRes`), then always
performs `self.exchange_jwt_token_for_access_token(jwt_token).await?`
(outcome `exchangeRes`, modelled as an oracle since it is a network POST
that also signs the assertion), and only then calls `access_token_inner`.
The second component of the result counts how many network exchanges with
the token endpoint the call performed. -/
def access_token_calls (s : GAuthState) (now : Nat)
    (jwtRes : Except GErr Unit) (exchangeRes : Except GErr Token) :
    (GAuthState × Except GErr String) × Nat :=
  match jwtRes with
  | .error e => ((s, .error e), 0)
  | .ok _ =>
    match exchangeRes with
    | .error e => ((s, .error e), 1)
    | .ok tok =>
      let r := access_token_inner s now tok
      ((r.1, .ok r.2), 1)

/-- The spec scenario of claim C1: two `access_token` calls in rapid
succession starting from an empty cache, each exchange succeeding with the
same server token; the result is the total number of network exchanges. -/
def two_calls_exchange_count (tok : Token) : Nat :=
  let r1 := access_token_calls ⟨none, none⟩ 0 (.ok ()) (.ok tok)
  let r2 := access_token_calls r1.1.1 1 (.ok ()) (.ok tok)
  r1.2 + r2.2

/-- **C1** (code_bug evidence).  At the failing input — a cache holding
`"Bearer cached"` with `expires_at = 1000` queried at `now = 10`, i.e. a
fresh cached token — `GAuth::access_token` still performs one network
exchange (signing the assertion and POSTing it to the token endpoint)
before `access_token_inner` returns the cached string; and the two-call
scenario from an empty cache performs two exchanges, not the one exchange
the claim requires.  The code contradicts its own doc comment
("If the access token is not expired, it will return the cached access
token. Otherwise, it will exchange the JWT token"): the exchange happens
unconditionally before the cache is consulted. -/
theorem access_token_exchanges_despite_fresh_cache :
    (access_token_calls ⟨some "Bearer cached", some 1000⟩ 10
        (.ok ()) (.ok ⟨"t", 3600, "Bearer"⟩)).2 = 1
    ∧ (access_token_calls ⟨some "Bearer cached", some 1000⟩ 10
        (.ok ()) (.ok ⟨"t", 3600, "Bearer"⟩)).1.2 = .ok "Bearer cached"
    ∧ two_calls_exchange_count ⟨"t", 3600, "Bearer"⟩ = 2 := by
  refine ⟨rfl, rfl, rfl⟩

/-- **C4** (confirmed).  For every successful exchange stored on a cache
miss, the new cache state holds the bearer string together with
`expires_at = now + expires_in - 30`; a populated cache is usable exactly
when `expires_at > now`; and, as a consequence, when `expires_in = 60`
the freshly stored token is still served for 29 more seconds but a call
30 seconds later refreshes, i.e. the token is treated as expired 30
seconds after it was stored, not 60.  (`Nat` subtraction agrees with the
code's `u64` subtraction under the guard `30 ≤ expires_in`, which every
real token-endpoint lifetime satisfies.) -/
theorem expiry_margin_and_usability (s : GAuthState) (now : Nat)
    (tok tokB : Token)
    (hmiss : cache_hit s now = none) (h30 : 30 ≤ tok.expires_in) :
    (access_token_inner s now tok).1
        = ⟨some tok.bearer_token, some (now + tok.expires_in - 30)⟩
    ∧ (∀ a e m, cache_hit ⟨some a, some e⟩ m = some a ↔ m < e)
    ∧ (tok.expires_in = 60 →
        (∀ t, t < 30 →
          access_token_inner (access_token_inner s now tok).1 (now + t) tokB
            = ((access_token_inner s now tok).1, tok.bearer_token))
        ∧ (access_token_inner (access_token_inner s now tok).1 (now + 30)
            tokB).2 = tokB.bearer_token) := by
  refine ⟨?_, ?_, ?_⟩
  · simp [access_token_inner, hmiss]
  · intro a e m
    by_cases h : m < e
    · simp [cache_hit, h]
    · simp [cache_hit, h]
  · intro h60
    have hstate : (access_token_inner s now tok).1
        = ⟨some tok.bearer_token, some (now + 30)⟩ := by
      simp [access_token_inner, hmiss, h60]
    constructor
    · intro t ht
      rw [hstate]
      have : now + t < now + 30 := by omega
      simp [access_token_inner, cache_hit, this]
    · rw [hstate]
      simp [access_token_inner, cache_hit]

/-- Witness for `expiry_margin_and_usability` at a concrete input:
empty cache, `now = 1000`, first token `⟨"abc", 60, "Bearer"⟩`. -/
theorem expiry_margin_and_usability_witness :
    cache_hit ⟨none, none⟩ 1000 = none
    ∧ 30 ≤ (⟨"abc", 60, "Bearer"⟩ : Token).expires_in
    ∧ (access_token_inner ⟨none, none⟩ 1000 ⟨"abc", 60, "Bearer"⟩).1
        = ⟨some (Token.bearer_token ⟨"abc", 60, "Bearer"⟩),
           some (1000 + (⟨"abc", 60, "Bearer"⟩ : Token).expires_in - 30)⟩ :=
  ⟨by decide, by decide,
    (expiry_margin_and_usability ⟨none, none⟩ 1000 ⟨"abc", 60, "Bearer"⟩
      ⟨"xyz", 3600, "Bearer"⟩ (by decide) (by decide)).1⟩

/-- The alphabet of `base64::engine::general_purpose::STANDARD`
(RFC 4648 section 4), used by `JwtToken::to_string` in src/gauth/jwt.rs. -/
def b64_std_alphabet : List Char :=
  ("ABCDEFGHIJKLMNOPQRSTUVWXYZ" ++ "abcdefghijklmnopqrstuvwxyz"
    ++ "0123456789+/").toList

/-- The base64url alphabet (RFC 4648 section 5), which the spec prescribes
for the JWT segments. -/
def b64_url_alphabet : List Char :=
  ("ABCDEFGHIJKLMNOPQRSTUVWXYZ" ++ "abcdefghijklmnopqrstuvwxyz"
    ++ "0123456789-_").toList

/-- The 6-bit groups of a byte sequence, looked up in `alpha`: three input
bytes yield four output characters; a trailing group of one or two bytes
yields two or three characters (padding handled by the caller). -/
def b64_groups (alpha : List Char) : List Nat → List Char
  | [] => []
  | [b1] => [alpha.getD (b1 / 4) ' ', alpha.getD (b1 % 4 * 16) ' ']
  | [b1, b2] =>
      [alpha.getD (b1 / 4) ' ', alpha.getD (b1 % 4 * 16 + b2 / 16) ' ',
       alpha.getD (b2 % 16 * 4) ' ']
  | b1 :: b2 :: b3 :: rest =>
      alpha.getD (b1 / 4) ' '
        :: alpha.getD (b1 % 4 * 16 + b2 / 16) ' '
        :: alpha.getD (b2 % 16 * 4 + b3 / 64) ' '
        :: alpha.getD (b3 % 64) ' '
        :: b64_groups alpha rest

/-- Embeds `general_purpose::STANDARD.encode`: standard alphabet and `=`
padding to a multiple of four characters. -/
def base64_encode_std (bs : List Nat) : String :=
  String.mk (b64_groups b64_std_alphabet bs)
    ++ (match bs.length % 3 with | 1 => "==" | 2 => "=" | _ => "")

/-- Base64url without padding, as the spec describes the JWT segment
encoding (and as RFC 7515 requires for a token with `typ: "JWT"`). -/
def base64url_encode_nopad (bs : List Nat) : String :=
  String.mk (b64_groups b64_url_alphabet bs)

/-- Embeds `JwtToken::to_string` (src/gauth/jwt.rs lines 113-129) applied
to the serialized header bytes, serialized payload bytes, and the RSA
signature bytes (the signature is produced over the string
`base64_header ++ "." ++ base64_payload`, which the model takes as given
via `sig`): every segment is encoded with `general_purpose::STANDARD` and
the three segments are joined with `"."`. -/
def jwt_to_string (header payload sig : List Nat) : String :=
  base64_encode_std header ++ "." ++ base64_encode_std payload ++ "."
    ++ base64_encode_std sig

/-- The assertion as the spec describes it: the same three segments,
base64url-encoded with no padding, joined with `"."`. -/
def jwt_to_string_specified (header payload sig : List Nat) : String :=
  base64url_encode_nopad header ++ "." ++ base64url_encode_nopad payload
    ++ "." ++ base64url_encode_nopad sig

/-- **C3** (code_bug evidence).  At the failing input — header bytes
`[0x01]`, payload bytes `[0x02]`, signature byte `[0xFB]` — the code's
encoding produces `"AQ==.Ag==.+w=="`: the segments carry `=` padding and
the signature segment uses the non-url character `+`, whereas the
spec-prescribed base64url-no-padding encoding of the same bytes is
`"AQ.Ag.-w"`.  (Every real signature here is 256 bytes — RSA-2048, as the
crate's own test `test_sign_rsa` asserts — and 256 mod 3 = 1 forces `==`
padding on the signature segment of every assertion the code emits.) -/
theorem jwt_segments_use_padded_standard_base64 :
    base64_encode_std [251] = "+w=="
    ∧ base64url_encode_nopad [251] = "-w"
    ∧ jwt_to_string [1] [2] [251] = "AQ==.Ag==.+w=="
    ∧ jwt_to_string_specified [1] [2] [251] = "AQ.Ag.-w"
    ∧ jwt_to_string [1] [2] [251] ≠ jwt_to_string_specified [1] [2] [251] := by
  refine ⟨rfl, rfl, rfl, rfl, by decide⟩

/-- Embeds `ResponseErrorInner` from src/google_logger.rs. -/
structure ResponseErrorInner where
  code : Option Int
  message : String
  status : String
deriving DecidableEq

/-- Embeds `LoggerError` from src/google_logger.rs: `Reqwest` (transport),
`Response` (the vendor error envelope), `GAuth`. -/
inductive LoggerError
  | reqwest
  | response (e : ResponseErrorInner)
  | gauth (e : GErr)
deriving DecidableEq

/-- An HTTP response as `write_logs` observes it: the status code, and the
result of parsing the body as the `ResponseError` envelope (`none` when
the body does not parse as the envelope — including read failures, which
`.json::<ResponseError>().await.ok()` silently discards). -/
structure HttpResponse where
  status : Nat
  envelope : Option ResponseErrorInner
deriving DecidableEq

/-- Embeds `GoogleLogger::write_logs` (src/google_logger.rs lines 93-120)
with the token acquisition and the HTTP POST as oracle inputs.  The code:
propagates a token error with `?`; propagates a failure of `.send()` with
`?` (reqwest errors there are connection-level — reqwest does not turn a
non-2xx status into an error, and the code never calls `error_for_status`
or inspects `resp.status`); then parses the body as the envelope, turning
any parse failure into `None` via `.ok()`; returns `Response` iff the
envelope parsed, `Ok(())` otherwise. -/
def write_logs (tokenRes : Except GErr String)
    (sendRes : Except Unit HttpResponse) : Except LoggerError Unit :=
  match tokenRes with
  | .error e => .error (.gauth e)
  | .ok _ =>
    match sendRes with
    | .error _ => .error .reqwest
    | .ok resp =>
      match resp.envelope with
      | some env => .error (.response env)
      | none => .ok ()

/-- **C2** counterexample.  A non-2xx response (status 500) whose body does
not parse as the error envelope makes `write_logs` return success, not
`TransportError` as the claim requires: the status code is never consulted
and body-parse failures are discarded by `.ok()`. -/
theorem non2xx_without_envelope_returns_success :
    write_logs (.ok "Bearer t") (.ok ⟨500, none⟩) = .ok () := rfl

/-- **C2** (corrected).  The actual classification of `write_logs`:
`RemoteError` exactly when the send returned a response whose body parses
as the envelope (whatever the status code); `TransportError` exactly when
the `.send()` call itself failed; a `GAuth` error exactly when token
acquisition failed; success exactly when the token was obtained, the send
returned, and the body did not parse as the envelope — in particular a
non-2xx response without a parseable envelope is success. -/
theorem write_logs_classification (tokenRes : Except GErr String)
    (sendRes : Except Unit HttpResponse) :
    (write_logs tokenRes sendRes = .ok ()
      ↔ (∃ tok resp, tokenRes = .ok tok ∧ sendRes = .ok resp
            ∧ resp.envelope = none))
    ∧ (∀ env, write_logs tokenRes sendRes = .error (.response env)
      ↔ (∃ tok resp, tokenRes = .ok tok ∧ sendRes = .ok resp
            ∧ resp.envelope = some env))
    ∧ (write_logs tokenRes sendRes = .error .reqwest
      ↔ (∃ tok, tokenRes = .ok tok ∧ sendRes = .error ()))
    ∧ (∀ e, write_logs tokenRes sendRes = .error (.gauth e)
      ↔ tokenRes = .error e) := by
  rcases tokenRes with e | tok
  · refine ⟨by simp [write_logs], fun env => by simp [write_logs],
      by simp [write_logs], fun e2 => ?_⟩
    simp only [write_logs]
    constructor
    · intro h
      cases h
      rfl
    · intro h
      cases h
      rfl
  · rcases sendRes with u | resp
    · cases u
      refine ⟨by simp [write_logs], fun env => by simp [write_logs],
        by simp [write_logs], fun e2 => by simp [write_logs]⟩
    · rcases henv : resp.envelope with _ | env0
      · refine ⟨by simp [write_logs, henv], fun env => ?_,
          by simp [write_logs, henv], fun e2 => by simp [write_logs, henv]⟩
        simp only [write_logs, henv]
        constructor
        · intro h
          exact absurd h (by simp)
        · rintro ⟨tok2, resp2, h1, h2, h3⟩
          cases h2
          rw [henv] at h3
          exact Option.noConfusion h3
      · refine ⟨by simp [write_logs, henv], fun env => ?_,
          by simp [write_logs, henv], fun e2 => by simp [write_logs, henv]⟩
        simp only [write_logs, henv]
        constructor
        · intro h
          cases h
          exact ⟨tok, resp, rfl, rfl, henv⟩
        · rintro ⟨tok2, resp2, h1, h2, h3⟩
          cases h2
          rw [henv] at h3
          cases h3
          rfl

/-- The loop-local state of `GoogleWriter::run_batch_logger`
(src/google_writer.rs lines 59-60): the entry buffer, and whether the
deadline timer is armed (`armed` abstracts `flush_deadline.is_some()`;
the code creates exactly one fresh `sleep(max_delay)` when the slot is
`None`, so a `Bool` captures the live/disarmed distinction). -/
structure LoopState (α : Type) where
  buffer : List α
  armed : Bool
deriving DecidableEq

/-- The two non-shutdown arms of the `select!` in `run_batch_logger`
(src/google_writer.rs lines 69-94): a new entry arriving from the
ingress channel, and the deadline timer firing. -/
inductive LoopEvent (α : Type)
  | recv (e : α)
  | timerFires
deriving DecidableEq

/-- One iteration of the `run_batch_logger` loop on one event, returning
the successor state and the batch flushed by this iteration, if any.

`recv e`: push onto the buffer; arm the timer if it was not armed; if the
buffer length reached `max_batch`, flush `std::mem::take(&mut buffer)`
(the whole buffer, leaving a fresh empty one) and clear the deadline.
`timerFires`: the arm is guarded by `flush_deadline.is_some()`; when it
runs, flush the whole buffer if it is non-empty, and clear the deadline
in all cases. -/
def loopStep (maxBatch : Nat) (s : LoopState α) :
    LoopEvent α → LoopState α × Option (List α)
  | .recv e =>
    if maxBatch ≤ (s.buffer ++ [e]).length then
      (⟨[], false⟩, some (s.buffer ++ [e]))
    else
      (⟨s.buffer ++ [e], true⟩, none)
  | .timerFires =>
    if s.armed then
      if s.buffer.isEmpty then (⟨s.buffer, false⟩, none)
      else (⟨[], false⟩, some s.buffer)
    else (s, none)

/-- Runs the `run_batch_logger` loop over a sequence of events, collecting
the flushed batches in order. -/
def runLoop (maxBatch : Nat) : LoopState α → List (LoopEvent α) →
    LoopState α × List (List α)
  | s, [] => (s, [])
  | s, ev :: evs =>
    ((runLoop maxBatch (loopStep maxBatch s ev).1 evs).1,
     (loopStep maxBatch s ev).2.toList
       ++ (runLoop maxBatch (loopStep maxBatch s ev).1 evs).2)

theorem runLoop_nil {α : Type} (maxBatch : Nat) (s : LoopState α) :
    runLoop maxBatch s [] = (s, []) := rfl

theorem runLoop_cons {α : Type} (maxBatch : Nat) (s : LoopState α)
    (ev : LoopEvent α) (evs : List (LoopEvent α)) :
    runLoop maxBatch s (ev :: evs)
      = ((runLoop maxBatch (loopStep maxBatch s ev).1 evs).1,
         (loopStep maxBatch s ev).2.toList
           ++ (runLoop maxBatch (loopStep maxBatch s ev).1 evs).2) := rfl

/-- The `recv` iteration below the size threshold: append, arm, no flush. -/
theorem loopStep_recv_low {α : Type} (maxBatch : Nat) (s : LoopState α)
    (e : α) (hb : ¬ maxBatch ≤ (s.buffer ++ [e]).length) :
    loopStep maxBatch s (LoopEvent.recv e)
      = (⟨s.buffer ++ [e], true⟩, none) := by
  simp only [loopStep]
  rw [if_neg hb]

/-- The `recv` iteration that reaches the size threshold: flush the whole
buffer, reset it, disarm the deadline. -/
theorem loopStep_recv_full {α : Type} (maxBatch : Nat) (s : LoopState α)
    (e : α) (hb : maxBatch ≤ (s.buffer ++ [e]).length) :
    loopStep maxBatch s (LoopEvent.recv e)
      = (⟨[], false⟩, some (s.buffer ++ [e])) := by
  simp only [loopStep]
  rw [if_pos hb]

/-- Receiving a run of entries that exactly fills the buffer up to
`maxBatch` produces the single size-triggered flush of the whole buffer,
in order, and leaves the loop empty and disarmed. -/
theorem runLoop_recv_fill {α : Type} (maxBatch : Nat) :
    ∀ (es b : List α) (armed : Bool), es ≠ [] →
      b.length + es.length = maxBatch →
      runLoop maxBatch ⟨b, armed⟩ (es.map LoopEvent.recv)
        = (⟨[], false⟩, [b ++ es]) := by
  intro es
  induction es with
  | nil => intro b armed hne _; exact absurd rfl hne
  | cons e es ih =>
    intro b armed _ hlen
    cases es with
    | nil =>
      have hb : maxBatch ≤ (b ++ [e]).length := by
        simp at hlen ⊢
        omega
      rw [List.map_cons, List.map_nil, runLoop_cons,
        loopStep_recv_full maxBatch ⟨b, armed⟩ e hb]
      simp [runLoop_nil]
    | cons e2 es2 =>
      have hb : ¬ maxBatch ≤ (b ++ [e]).length := by
        simp at hlen ⊢
        omega
      have hrec := ih (b ++ [e]) true (by simp)
        (by simp at hlen ⊢; omega)
      rw [List.map_cons, runLoop_cons,
        loopStep_recv_low maxBatch ⟨b, armed⟩ e hb]
      dsimp only
      rw [hrec]
      simp

/-- Receiving a run of entries that stays strictly below `maxBatch`
produces no flush: the entries accumulate in order and the timer is armed. -/
theorem runLoop_recv_partial {α : Type} (maxBatch : Nat) :
    ∀ (es b : List α) (armed : Bool), es ≠ [] →
      b.length + es.length < maxBatch →
      runLoop maxBatch ⟨b, armed⟩ (es.map LoopEvent.recv)
        = (⟨b ++ es, true⟩, []) := by
  intro es
  induction es with
  | nil => intro b armed hne _; exact absurd rfl hne
  | cons e es ih =>
    intro b armed _ hlen
    have hb : ¬ maxBatch ≤ (b ++ [e]).length := by
      simp at hlen ⊢
      omega
    cases es with
    | nil =>
      rw [List.map_cons, List.map_nil, runLoop_cons,
        loopStep_recv_low maxBatch ⟨b, armed⟩ e hb]
      simp [runLoop_nil]
    | cons e2 es2 =>
      have hrec := ih (b ++ [e]) true (by simp)
        (by simp at hlen ⊢; omega)
      rw [List.map_cons, runLoop_cons,
        loopStep_recv_low maxBatch ⟨b, armed⟩ e hb]
      dsimp only
      rw [hrec]
      simp

/-- **C5** (confirmed).  Starting from an empty buffer, enqueueing exactly
`max_batch` records triggers exactly one flush, whose batch contains
exactly those records in enqueue order, and the flush leaves the deadline
timer disarmed (`flush_deadline = None`). -/
theorem size_trigger_flushes_exact_batch {α : Type} (maxBatch : Nat)
    (es : List α) (hpos : 0 < maxBatch) (hlen : es.length = maxBatch) :
    runLoop maxBatch ⟨[], false⟩ (es.map LoopEvent.recv)
      = (⟨[], false⟩, [es]) := by
  have hne : es ≠ [] := by
    intro h
    rw [h] at hlen
    simp at hlen
    omega
  have := runLoop_recv_fill maxBatch es [] false hne (by simpa using hlen)
  simpa using this

/-- Witness for `size_trigger_flushes_exact_batch`: `max_batch = 2`,
records `[10, 20]`. -/
theorem size_trigger_flushes_exact_batch_witness :
    0 < 2 ∧ ([10, 20] : List Nat).length = 2
    ∧ runLoop 2 ⟨[], false⟩ ([10, 20].map LoopEvent.recv)
        = (⟨[], false⟩, [[10, 20]]) :=
  ⟨by decide, by decide,
    size_trigger_flushes_exact_batch 2 [10, 20] (by decide) (by decide)⟩

/-- One loop iteration preserves the arming invariant: the deadline timer
is armed exactly when the buffer is non-empty. -/
theorem loopStep_preserves_arming {α : Type} (maxBatch : Nat)
    (s : LoopState α) (ev : LoopEvent α)
    (h : s.armed = true ↔ s.buffer ≠ []) :
    (loopStep maxBatch s ev).1.armed = true
      ↔ (loopStep maxBatch s ev).1.buffer ≠ [] := by
  cases ev with
  | recv e =>
    by_cases hb : maxBatch ≤ (s.buffer ++ [e]).length
    · rw [loopStep_recv_full maxBatch s e hb]
      simp
    · rw [loopStep_recv_low maxBatch s e hb]
      simp
  | timerFires =>
    by_cases ha : s.armed = true
    · by_cases he : s.buffer.isEmpty
      · have : s.buffer = [] := by simpa [List.isEmpty_iff] using he
        simp [loopStep, ha, he, this]
      · simp [loopStep, ha, he]
    · have ha2 : s.armed = false := by
        cases hx : s.armed
        · rfl
        · exact absurd hx ha
      simp only [loopStep, ha2, if_false]
      exact h

/-- **C6** (confirmed).  In every state reachable by the
`run_batch_logger` loop from its initial state (empty buffer, no timer),
the deadline timer is armed if and only if the buffer is non-empty.  In
particular an empty buffer never has a live timer, every flush (which
empties the buffer) leaves the timer disarmed, and the timer is armed
exactly by an append to an empty buffer; at most one timer is live at a
time because the loop owns the single `flush_deadline : Option` slot. -/
theorem timer_armed_iff_buffer_nonempty {α : Type} (maxBatch : Nat)
    (evs : List (LoopEvent α)) :
    (runLoop maxBatch ⟨[], false⟩ evs).1.armed = true
      ↔ (runLoop maxBatch ⟨[], false⟩ evs).1.buffer ≠ [] := by
  suffices h : ∀ (s : LoopState α), (s.armed = true ↔ s.buffer ≠ []) →
      ((runLoop maxBatch s evs).1.armed = true
        ↔ (runLoop maxBatch s evs).1.buffer ≠ []) by
    exact h ⟨[], false⟩ (by simp)
  induction evs with
  | nil => intro s hs; simpa [runLoop] using hs
  | cons ev evs ih =>
    intro s hs
    simp only [runLoop]
    exact ih (loopStep maxBatch s ev).1
      (loopStep_preserves_arming maxBatch s ev hs)

/-- The loop with the network made explicit: each flush performed by
`flush_batch` (src/google_writer.rs lines 107-112) consumes the next send
outcome from `oc` (`true` = `write_logs` succeeded, `false` = it returned
an error, which `flush_batch` only logs).  The result pairs every
attempted batch with its outcome, in order. -/
def runLoopSend (maxBatch : Nat) : LoopState α → List (LoopEvent α) →
    List Bool → LoopState α × List (List α × Bool)
  | s, [], _ => (s, [])
  | s, ev :: evs, oc =>
    match (loopStep maxBatch s ev).2 with
    | none => runLoopSend maxBatch (loopStep maxBatch s ev).1 evs oc
    | some b =>
      ((runLoopSend maxBatch (loopStep maxBatch s ev).1 evs oc.tail).1,
       (b, oc.headD true)
         :: (runLoopSend maxBatch (loopStep maxBatch s ev).1 evs oc.tail).2)

/-- The loop's state evolution and the sequence of batches it attempts to
send are the same whatever the send outcomes are: `flush_batch` discards
the result after logging it. -/
theorem runLoopSend_eq_runLoop {α : Type} (maxBatch : Nat) :
    ∀ (evs : List (LoopEvent α)) (s : LoopState α) (oc : List Bool),
      (runLoopSend maxBatch s evs oc).1 = (runLoop maxBatch s evs).1
      ∧ (runLoopSend maxBatch s evs oc).2.map Prod.fst
          = (runLoop maxBatch s evs).2 := by
  intro evs
  induction evs with
  | nil => intro s oc; exact ⟨rfl, rfl⟩
  | cons ev evs ih =>
    intro s oc
    cases hf : (loopStep maxBatch s ev).2 with
    | none =>
      have h1 := ih (loopStep maxBatch s ev).1 oc
      rw [runLoop_cons]
      simp only [runLoopSend, hf]
      exact ⟨h1.1, by simp [h1.2]⟩
    | some b =>
      have h1 := ih (loopStep maxBatch s ev).1 oc.tail
      rw [runLoop_cons]
      simp only [runLoopSend, hf]
      exact ⟨h1.1, by simp [h1.2]⟩

/-- **C7** (confirmed).  Each flush hands the whole buffer to
`flush_batch` and replaces it with a fresh empty one (`std::mem::take`),
and a send error only drops that batch: the loop state and every
subsequently attempted batch are exactly those of the outcome-free loop,
for any sequence of send outcomes — no retry, no re-buffering.  The third
conjunct is the spec's scenario: with `max_batch = 1`, a transport failure
on the batch `[0]` does not prevent the independent batch `[1]` from being
attempted and succeeding. -/
theorem send_failure_drops_batch_only {α : Type} (maxBatch : Nat)
    (evs : List (LoopEvent α)) (oc : List Bool) :
    (runLoopSend maxBatch ⟨[], false⟩ evs oc).1
        = (runLoop maxBatch ⟨[], false⟩ evs).1
    ∧ (runLoopSend maxBatch ⟨[], false⟩ evs oc).2.map Prod.fst
        = (runLoop maxBatch ⟨[], false⟩ evs).2
    ∧ runLoopSend 1 ⟨[], false⟩
        [LoopEvent.recv 0, LoopEvent.recv 1] [false, true]
        = (⟨[], false⟩, [([0], false), ([1], true)]) :=
  ⟨(runLoopSend_eq_runLoop maxBatch evs ⟨[], false⟩ oc).1,
   (runLoopSend_eq_runLoop maxBatch evs ⟨[], false⟩ oc).2,
   by decide⟩

/-- The two terminal phases of the background task: the loop running, and
the state after `run_batch_logger` returned (`Stopped`). -/
inductive WriterPhase
  | running
  | stopped
deriving DecidableEq

/-- Embeds the code after the loop's `break` on the shutdown signal
(src/google_writer.rs lines 98-104): one final flush of the whole buffer
if it is non-empty — with no condition on `max_batch` — then the task
ends. -/
def shutdownDrain (s : LoopState α) : List (List α) × WriterPhase :=
  (if s.buffer.isEmpty then [] else [s.buffer], .stopped)

/-- A complete writer run: the loop processes `evs`, then the shutdown
signal arrives (breaking the loop before any further ingress event is
taken) and the final drain runs.  Returns all flushed batches in order
and the terminal phase, which is what unblocks the caller of `drop` via
`block_on(handle)` (src/google_writer.rs lines 140-154). -/
def runWithShutdown (maxBatch : Nat) (evs : List (LoopEvent α)) :
    List (List α) × WriterPhase :=
  ((runLoop maxBatch ⟨[], false⟩ evs).2
      ++ (shutdownDrain (runLoop maxBatch ⟨[], false⟩ evs).1).1,
   (shutdownDrain (runLoop maxBatch ⟨[], false⟩ evs).1).2)

/-- Embeds `mpsc::Sender::try_send` as `GoogleWriter::write` uses it: a
non-blocking push that fails (without modifying the queue) when the
channel is closed — which it is once the background task has stopped and
dropped the receiver — or when the queue already holds `cap` records. -/
def try_send (closed : Bool) (cap : Nat) (queue : List α) (e : α) :
    Bool × List α :=
  if closed then (false, queue)
  else if cap ≤ queue.length then (false, queue)
  else (true, queue ++ [e])

/-- **C8** (confirmed).  Shutdown with `N` buffered records, `0 < N <
max_batch`, before the timer fires: the loop performed no earlier flush,
the final drain flushes exactly those records in order in a single batch
— even though their number is below `max_batch`, i.e. the final flush is
unconditional with respect to batch size — the task reaches `stopped`
(unblocking the shutdown caller), and an enqueue after shutdown is not
accepted and buffers nothing (`try_send` on the closed channel fails and
leaves the queue unchanged). -/
theorem shutdown_drains_buffer_and_rejects_enqueue {α : Type}
    (maxBatch cap : Nat) (es q : List α) (e : α)
    (hne : es ≠ []) (hlt : es.length < maxBatch) :
    runWithShutdown maxBatch (es.map LoopEvent.recv)
        = ([es], .stopped)
    ∧ try_send true cap q e = (false, q) := by
  constructor
  · have h := runLoop_recv_partial maxBatch es [] false hne
      (by simpa using hlt)
    simp [runWithShutdown, h, shutdownDrain, hne]
  · rfl

/-- Witness for `shutdown_drains_buffer_and_rejects_enqueue`:
`max_batch = 3`, one buffered record `[5]`, a post-shutdown enqueue of `7`
against a queue `[9]` of capacity 2. -/
theorem shutdown_drains_buffer_and_rejects_enqueue_witness :
    ([5] : List Nat) ≠ [] ∧ ([5] : List Nat).length < 3
    ∧ (runWithShutdown 3 ([5].map LoopEvent.recv) = ([[5]], .stopped)
        ∧ try_send true 2 [9] (7 : Nat) = (false, [9])) :=
  ⟨by decide, by decide,
    shutdown_drains_buffer_and_rejects_enqueue 3 2 [5] [9] 7
      (by decide) (by decide)⟩

/-- Embeds `<GoogleWriter as Write>::write` (src/google_writer.rs lines
119-128).  `parsed` is the outcome of `serde_json::from_slice(buf)`
(`none` = malformed JSON, mapped to an `InvalidData` error); otherwise the
entry goes through `try_send`, a failed push only emits a warning through
the `tracing::warn!` side-channel, and the function returns
`Ok(buf.len())` either way.  Components of the result: the producer's
return value, the queue afterwards, and whether the warning was issued. -/
def writer_write (parsed : Option α) (closed : Bool) (cap : Nat)
    (queue : List α) (len : Nat) : Except Unit Nat × List α × Bool :=
  match parsed with
  | none => (.error (), queue, false)
  | some v =>
    if (try_send closed cap queue v).1 then
      (.ok len, (try_send closed cap queue v).2, false)
    else
      (.ok len, (try_send closed cap queue v).2, true)

/-- **C9** counterexample.  Two concrete calls — one whose record is
accepted (empty queue of capacity 1) and one whose record is dropped
(queue already full) — return the identical value `Ok(5)`: the return
value of `write` does not tell the producer whether the record was
accepted; only the warning side-channel distinguishes the two. -/
theorem write_return_value_hides_drop :
    writer_write (some 0) false 1 [] 5 = (.ok 5, [0], false)
    ∧ writer_write (some 0) false 1 [0] 5 = (.ok 5, [0], true) :=
  ⟨rfl, rfl⟩

/-- **C9** (corrected).  The push is non-blocking (a pure `try_send`, no
waiting) and a queue-full or closed-channel condition is not an error or
fault: the record is dropped, the drop is signalled through the warning
side-channel alone, the queue is left unchanged, and the producer's
return value is `Ok(len)` whether or not the record was accepted. -/
theorem write_nonblocking_drop_signalled_by_warning {α : Type} (v : α)
    (closed : Bool) (cap : Nat) (queue : List α) (len : Nat) :
    (writer_write (some v) closed cap queue len).1 = .ok len
    ∧ ((writer_write (some v) closed cap queue len).2.2 = true
        ↔ (closed = true ∨ cap ≤ queue.length))
    ∧ (writer_write (some v) closed cap queue len).2.1
        = (if closed = true ∨ cap ≤ queue.length then queue
           else queue ++ [v]) := by
  cases closed with
  | true => simp [writer_write, try_send]
  | false =>
    by_cases hc : cap ≤ queue.length
    · simp [writer_write, try_send, hc]
    · simp [writer_write, try_send, hc]

/-- Embeds the writer factory of `GCloudLayerConfig::build_layer`
(src/lib.rs line 82): every `GoogleWriter` is built from
`logger.clone()`, a by-value copy of the `GoogleLogger` — `GAuth` derives
`Clone` with owned `Option<String>`/`Option<u64>` fields and sits behind
no shared pointer, so each writer holds a private copy of the token cache.
A pool of `n` writers is `n` such copies. -/
def make_writers (logger : GAuthState) (n : Nat) : List GAuthState :=
  List.replicate n logger

/-- The cache effect of an `access_token` call issued through writer `i`
of a pool: only slot `i` is replaced by its own `access_token_inner`
result. -/
def writer_access_token (ws : List GAuthState) (i now : Nat)
    (tok : Token) : List GAuthState :=
  match ws[i]? with
  | none => ws
  | some s => ws.set i (access_token_inner s now tok).1

/-- **C10** (confirmed).  For any pool of writers produced by the layer's
factory, refreshing (or reading) the token cache through writer `i`
leaves the cached-token slot and `expires_at` of every other writer `j`
unchanged: cached tokens are never shared across writers. -/
theorem writer_token_cache_is_private (logger : GAuthState)
    (n i j now : Nat) (tok : Token) (hne : i ≠ j) :
    (writer_access_token (make_writers logger n) i now tok)[j]?
      = (make_writers logger n)[j]? := by
  unfold writer_access_token
  cases h : (make_writers logger n)[i]? with
  | none => rfl
  | some s => exact List.getElem?_set_ne hne

/-- Witness for `writer_token_cache_is_private`: two writers cloned from
an empty-cache logger; a refresh through writer 0 leaves writer 1's slot
unchanged. -/
theorem writer_token_cache_is_private_witness :
    (0 : Nat) ≠ 1
    ∧ (writer_access_token (make_writers ⟨none, none⟩ 2) 0 100
        ⟨"t", 3600, "Bearer"⟩)[1]?
      = (make_writers ⟨none, none⟩ 2)[1]? :=
  ⟨by decide,
    writer_token_cache_is_private ⟨none, none⟩ 2 0 1 100
      ⟨"t", 3600, "Bearer"⟩ (by decide)⟩

end TracingGcloud
